import Mathlib

/-!
# Verification of `easy_ols.py` (class `EasyOLS`)

Shallow embedding of the `EasyOLS` regression wrapper: formula construction,
constructor validation, variable-name extraction, fitting glue (confidence =
1 − p-value), the narration in `summary()`, and the `plot()` guard and dataset
mutation.  Python strings are modelled as Lean `String`s (slicing by code
point), floating point values as rationals, and a pandas `DataFrame` as an
ordered association list of named numeric columns.  The external collaborators
(`statsmodels`, `matplotlib`) are modelled from the spec where their observable
behaviour matters and abstracted into parameters where it does not.
-/

namespace EasyOLS

/-- A pandas `DataFrame`: an ordered sequence of named numeric columns. -/
structure DataFrame where
  cols : List (String × List ℚ)
deriving DecidableEq, Repr

/-- The dynamic (Python-level) values the constructor can receive. -/
inductive PyVal where
  | pyStr (s : String)
  | pyInt (n : Int)
  | pyList (xs : List PyVal)
  | pyFrame (df : DataFrame)

/-- The Python exceptions raised by the code paths we model. -/
inductive PyErr where
  | valueErr (msg : String)
  | typeErr (msg : String)
  | attributeErr (msg : String)
deriving DecidableEq, Repr

/-- `isinstance(v, str)`. -/
def PyVal.isStr : PyVal → Bool
  | .pyStr _ => true
  | _ => false

/-- `isinstance(v, pd.DataFrame)`. -/
def PyVal.isFrame : PyVal → Bool
  | .pyFrame _ => true
  | _ => false

/-- Python iteration `for var in v`: a `str` yields its one-character
substrings, a `list` yields its elements, a `DataFrame` yields its column
labels; an `int` is not iterable (`none`). -/
def PyVal.iterElems : PyVal → Option (List PyVal)
  | .pyStr s => some (s.data.map fun c => .pyStr (String.mk [c]))
  | .pyList xs => some xs
  | .pyFrame df => some (df.cols.map fun p => .pyStr p.1)
  | .pyInt _ => none

/-- The argument validation at the top of `EasyOLS.__init__` (easy_ols.py
lines 46–54), preserving the Python evaluation order: the membership test
`all(isinstance(var, str) for var in independent_vars)` iterates
`independent_vars` and hence raises `TypeError` when it is not iterable. -/
def checkArgs (dependent_var independent_vars df : PyVal) : Except PyErr Unit :=
  if ¬ dependent_var.isStr then
    .error (.valueErr "dependent_var must be a string")
  else
    let checkFrame : Except PyErr Unit :=
      if ¬ df.isFrame then .error (.valueErr "df must be a DataFrame")
      else .ok ()
    if independent_vars.isStr then checkFrame
    else
      match independent_vars.iterElems with
      | none => .error (.typeErr "object is not iterable")
      | some elems =>
        if elems.all PyVal.isStr then checkFrame
        else .error (.valueErr "independent_vars must be a string or an array of strings")

/-- The statically-typed shape of `independent_vars` after validation:
either a single column name or a list of column names. -/
inductive IndependentVars where
  | single (v : String)
  | several (vs : List String)
deriving DecidableEq, Repr

/-- The declared independent variables as a list (a single name counts as
one variable). -/
def IndependentVars.varList : IndependentVars → List String
  | .single v => [v]
  | .several vs => vs

/-- Number of configured independent variables. -/
def IndependentVars.numVars (iv : IndependentVars) : Nat := iv.varList.length

/-- The escaping wrapper used throughout `__create_formula`: the Python
f-string `f"Q(\"{name}\")"`. -/
def escape (name : String) : String := "Q(\"" ++ name ++ "\")"

/-- `EasyOLS.__create_formula` (easy_ols.py lines 77–113): `escape(dep)`,
`" ~ "`, then either the single escaped name or the escaped names joined
by `" + "` (the join in the list branch). -/
def create_formula (dependent_var : String) (independent_vars : IndependentVars) :
    String :=
  let dependent_part := escape dependent_var
  let independent_part :=
    match independent_vars with
    | .single v => escape v
    | .several vs => String.intercalate " + " (vs.map escape)
  dependent_part ++ " ~ " ++ independent_part

/-- `EasyOLS.__format_var` (easy_ols.py lines 143–151): `"Intercept"` passes
through; any other name is sliced `var[3 : len(var) - 2]`, i.e. drop the
first three characters and keep `len(var) - 5` of the rest. -/
def format_var (var : String) : String :=
  if var = "Intercept" then var
  else (var.drop 3).take (var.length - 5)

/-- Modelled from the spec: the unfit model returned by
`statsmodels.formula.api.ols(formula, df)`.  Spec §3 (NamedVariables) and §4.2:
the unfit model exposes `endog_names` (the escaped dependent term) and
`exog_names`, an ordered sequence with `"Intercept"` first followed by one
internal (escaped) name per independent variable in declaration order. -/
structure UnfitModel where
  endog_names : String
  exog_names : List String
deriving DecidableEq, Repr

/-- Modelled from the spec: the result of fitting — the `statsmodels`
`RegressionResults` — exposing `params` (coefficients) and `pvalues`, one per
`exog` name, in the same order.  The numeric values are external regression
output, so they enter the model as abstract data. -/
structure FittedModel where
  params : List ℚ
  pvalues : List ℚ
deriving DecidableEq, Repr

/-- Modelled from the spec: `ols(self.formula, self.df)` builds the unfit
model, whose names come from the formula terms (intercept first, then the
escaped independent variables in declaration order). -/
def ols (dependent_var : String) (independent_vars : IndependentVars) : UnfitModel :=
  { endog_names := escape dependent_var
  , exog_names := "Intercept" :: independent_vars.varList.map escape }

/-- `self.model` holds the unfit model before `__fit` and the fitted results
afterwards (`self.model = self.model.fit()` rebinds it). -/
inductive ModelSlot where
  | unfit (m : UnfitModel)
  | fitted (r : FittedModel)
deriving DecidableEq, Repr

/-- The attribute state of an `EasyOLS` instance after the validation in
`__init__` has passed. -/
structure State where
  dependent_var : String
  independent_vars : IndependentVars
  df : DataFrame
  formula : Option String
  model : Option ModelSlot
  internal_dependent_var : Option String
  internal_independent_vars : Option (List String)
  coefficients : Option (List ℚ)
  confidences : Option (List ℚ)
deriving DecidableEq, Repr

/-- The attribute assignments in `__init__` before the four private calls:
every derived attribute starts as `None`. -/
def initialState (dependent_var : String) (independent_vars : IndependentVars)
    (df : DataFrame) : State :=
  { dependent_var := dependent_var
  , independent_vars := independent_vars
  , df := df
  , formula := none
  , model := none
  , internal_dependent_var := none
  , internal_independent_vars := none
  , coefficients := none
  , confidences := none }

/-- `self.__create_formula()` as a step on the instance state. -/
def createFormulaStep (s : State) : State :=
  { s with formula := some (create_formula s.dependent_var s.independent_vars) }

/-- `self.__define_model()`: builds the unfit model from the formula
(easy_ols.py lines 116–122); an `AttributeError`-free run needs the formula
to have been created, which the call order in `__init__` guarantees. -/
def defineModelStep (s : State) : Except PyErr State :=
  match s.formula with
  | none => .error (.typeErr "ols formula must be a string, not None")
  | some _ => .ok { s with model := some (.unfit (ols s.dependent_var s.independent_vars)) }

/-- `self.__extract_var_names()` (easy_ols.py lines 124–132): reads
`endog_names` / `exog_names`, attributes that exist only on the *unfit*
model — after fitting, `self.model` is a results object without them. -/
def extractVarNamesStep (s : State) : Except PyErr State :=
  match s.model with
  | some (.unfit m) =>
      .ok { s with internal_dependent_var := some m.endog_names
                 , internal_independent_vars := some m.exog_names }
  | some (.fitted _) =>
      .error (.attributeErr "RegressionResults object has no attribute endog_names")
  | none => .error (.attributeErr "NoneType object has no attribute endog_names")

/-- `self.__fit()` (easy_ols.py lines 134–141): rebinds `self.model` to the
fitted results and derives `coefficients = params` and
`confidences = 1 - pvalues` (elementwise, as the pandas expression does).
The numeric fit outcome is output of the external library, passed in. -/
def fitStep (outcome : FittedModel) (s : State) : Except PyErr State :=
  match s.model with
  | some (.unfit _) =>
      .ok { s with model := some (.fitted outcome)
                 , coefficients := some outcome.params
                 , confidences := some (outcome.pvalues.map fun p => 1 - p) }
  | some (.fitted _) => .error (.attributeErr "RegressionResults object has no attribute fit")
  | none => .error (.attributeErr "NoneType object has no attribute fit")

/-- The body of `__init__` after validation: the four private calls in source
order (easy_ols.py lines 71–75, "The order of these functions matters"). -/
def initSteps (dependent_var : String) (independent_vars : IndependentVars)
    (df : DataFrame) (outcome : FittedModel) : Except PyErr State := do
  let s := initialState dependent_var independent_vars df
  let s := createFormulaStep s
  let s ← defineModelStep s
  let s ← extractVarNamesStep s
  fitStep outcome s

/-- Round a rational to the nearest integer, ties to even — the rounding of
CPython float formatting (IEEE-754 round-half-even, exact on the values the
claims exercise). -/
def roundHalfEven (q : ℚ) : ℤ :=
  let f := ⌊q⌋
  let r := q - f
  if r < 1/2 then f
  else if 1/2 < r then f + 1
  else if f % 2 = 0 then f else f + 1

/-- Render a natural number below 100 as exactly two digits. -/
def twoDigits (k : ℕ) : String :=
  if k < 10 then "0" ++ toString k else toString k

/-- The Python format specifier `{:.2f}` on a (finite) float value: sign of
the value, then the magnitude rounded to two decimal places.  Python keeps
the sign of a negative value even when the magnitude rounds to zero
(`-0.001` renders as `-0.00`). -/
def format2 (x : ℚ) : String :=
  let n : ℕ := (roundHalfEven (|x| * 100)).toNat
  (if x < 0 then "-" else "") ++ toString (n / 100) ++ "." ++ twoDigits (n % 100)

/-- The Python format specifier `{:.2%}`: multiply by 100, format with two
decimal places, append a percent sign. -/
def format_percent (x : ℚ) : String := format2 (x * 100) ++ "%"

/-- Split a character list at the first decimal point. -/
def splitIntFrac : List Char → List Char × List Char
  | [] => ([], [])
  | c :: cs =>
    if c = '.' then ([], cs)
    else
      let p := splitIntFrac cs
      (c :: p.1, p.2)

/-- Value of a digit list read in base 10. -/
def digitsVal (cs : List Char) : ℕ :=
  cs.foldl (fun a c => a * 10 + (c.toNat - 48)) 0

/-- Python `float(s)` restricted to the fixed-point strings `format2`
produces: optional leading minus, integer digits, dot, fraction digits. -/
def parseFloat (s : String) : ℚ :=
  let p : Bool × List Char :=
    match s.data with
    | '-' :: cs => (true, cs)
    | cs => (false, cs)
  let q := splitIntFrac p.2
  let mag : ℚ := (digitsVal q.1 : ℚ) + (digitsVal q.2 : ℚ) / (10 : ℚ) ^ q.2.length
  if p.1 then -mag else mag

/-- The conditional expression rendering a formatted coefficient inside the
non-intercept sentences of `summary()` (easy_ols.py lines 192 and 194):
prefix `"+"` exactly when `float(coefficient) > 0`, where `coefficient` is
the already-formatted two-decimal string. -/
def signedCoefficient (coefficient : String) : String :=
  (if 0 < parseFloat coefficient then "+" else "") ++ coefficient

/-- The `areMultipleIndependentVars` flag of `summary()` (easy_ols.py lines
163–166): true when the list of formatted variable names — which includes
`"Intercept"` — has length greater than 2. -/
def areMultipleIndependentVars (independent_vars : List String) : Bool :=
  decide (independent_vars.length > 2)

/-- One iteration of the `for i in range(...)` loop of `summary()`
(easy_ols.py lines 171–194).  `none` models an `IndexError` from an
out-of-range positional access (`.iloc[i]` or `independent_vars[i+1]`). -/
def conclusionLine (dependent_var : String) (independent_vars : List String)
    (areMultiple : Bool) (confidences coefficients : List ℚ) (i : ℕ) :
    Option String :=
  match confidences.get? i, coefficients.get? i with
  | some cf, some co =>
    let confidence := format_percent cf
    let coefficient := format2 co
    if i = 0 then
      if areMultiple then
        some ("This model is " ++ confidence ++
          " confident when all independent variables are 0, the average value of "
          ++ dependent_var ++ " is " ++ coefficient ++ ".")
      else
        match independent_vars.get? (i + 1) with
        | some v =>
          some ("This model is " ++ confidence ++ " confident when " ++ v ++
            " is 0, the average value of " ++ dependent_var ++ " is " ++
            coefficient ++ ".")
        | none => none
    else
      match independent_vars.get? i with
      | some v =>
        if areMultiple then
          some ("This model is " ++ confidence ++ " confident increasing " ++ v ++
            " by 1 will, on average, change " ++ dependent_var ++ " by " ++
            signedCoefficient coefficient ++
            " when all other independent variables are held constant.")
        else
          some ("This model is " ++ confidence ++ " confident increasing " ++ v ++
            " by 1 will, on average, change " ++ dependent_var ++ " by " ++
            signedCoefficient coefficient ++ ".")
      | none => none
  | _, _ => none

/-- The conclusion block printed by `summary()` after the native fit summary
and the `"Conclusions:"` banner (easy_ols.py lines 160–194): the optional
multi-variable header followed by one sentence per extracted variable.
`none` models a raised exception (missing attribute or index error). -/
def summaryConclusions (s : State) : Option (List String) :=
  match s.internal_dependent_var, s.internal_independent_vars,
        s.confidences, s.coefficients with
  | some idep, some iivs, some confs, some coefs =>
    let dependent_var := format_var idep
    let independent_vars := iivs.map format_var
    let areMultiple := areMultipleIndependentVars independent_vars
    let header :=
      if areMultiple then
        ["Independent variables: " ++
          String.intercalate ", " (independent_vars.drop 1)]
      else []
    match (List.range independent_vars.length).mapM
        (conclusionLine dependent_var independent_vars areMultiple confs coefs) with
    | some lines => some (header ++ lines)
    | none => none
  | _, _, _, _ => none

/-- The guard at the top of `plot()` (easy_ols.py lines 196–202): raise for a
non-string iterable of more than one name; a single string (or a one-element
list) passes. -/
def plotCheck (independent_vars : IndependentVars) : Except PyErr Unit :=
  match independent_vars with
  | .single _ => .ok ()
  | .several vs =>
    if vs.length > 1 then
      .error (.valueErr "Cannot create plot for models with multiple independent variables.")
    else .ok ()

/-- pandas column assignment `df[name] = vals`: replace the column in place
when the label exists, otherwise append it at the end. -/
def DataFrame.setColumn (df : DataFrame) (name : String) (vals : List ℚ) :
    DataFrame :=
  if df.cols.any (fun p => p.1 = name) then
    ⟨df.cols.map fun p => if p.1 = name then (name, vals) else p⟩
  else ⟨df.cols ++ [(name, vals)]⟩

/-- The dataset mutation performed by a successful `plot()` call (easy_ols.py
lines 204–205): `df_pred` aliases `self.df`, and the predicted values are
stored under the derived label.  The predicted values themselves are external
regression output, passed in. -/
def plotMutate (dependent_var : String) (independent_vars : IndependentVars)
    (df : DataFrame) (predictions : List ℚ) : Except PyErr DataFrame :=
  match plotCheck independent_vars with
  | .error e => .error e
  | .ok () => .ok (df.setColumn ("Predicted " ++ dependent_var) predictions)

/-- pandas column selection `df[name]`: the first column carrying the label,
if any. -/
def DataFrame.col? (df : DataFrame) (name : String) : Option (List ℚ) :=
  (df.cols.find? fun p => p.1 = name).map Prod.snd

/-- The dynamic value of a well-typed `independent_vars` argument. -/
def IndependentVars.toPyVal : IndependentVars → PyVal
  | .single v => .pyStr v
  | .several vs => .pyList (vs.map .pyStr)

/-- The name carried by a string value (junk on other values; only applied
under an all-strings guard). -/
def pyStrName : PyVal → String
  | .pyStr s => s
  | _ => ""

/-- Recover the typed shape of `independent_vars` from the dynamic value
accepted by validation: a string is a single name; a list of strings and a
`DataFrame` (whose iteration yields its column labels) are name sequences. -/
def toTypedVars : PyVal → Option IndependentVars
  | .pyStr s => some (.single s)
  | .pyList xs =>
    if xs.all PyVal.isStr then some (.several (xs.map pyStrName)) else none
  | .pyFrame df => some (.several (df.cols.map fun p => p.1))
  | .pyInt _ => none

/-- The whole of `EasyOLS.__init__` (easy_ols.py lines 46–75): validate the
dynamic arguments, then run the four construction steps in source order.  A
validation error is raised before any formula building or fitting happens. -/
def easyOLSInit (dependent_var independent_vars df : PyVal)
    (outcome : FittedModel) : Except PyErr State := do
  let () ← checkArgs dependent_var independent_vars df
  match dependent_var, toTypedVars independent_vars, df with
  | .pyStr d, some iv, .pyFrame dframe => initSteps d iv dframe outcome
  | _, _, _ => .error (.typeErr "unreachable after validation")

/-! ## Helper lemmas -/

lemma escape_data (x : String) :
    (escape x).data = ('Q' :: '(' :: '"' :: []) ++ x.data ++ ('"' :: ')' :: []) := by
  simp only [escape, String.data_append]

lemma escape_length (x : String) : (escape x).length = x.length + 5 := by
  show (escape x).data.length = x.data.length + 5
  rw [escape_data]
  simp

lemma escape_ne_intercept (x : String) : escape x ≠ "Intercept" := by
  intro h
  have h2 : (escape x).data = "Intercept".data := by rw [h]
  rw [escape_data] at h2
  simp at h2

lemma escape_injective : Function.Injective escape := by
  intro a b h
  have h2 : (escape a).data = (escape b).data := by rw [h]
  rw [escape_data, escape_data] at h2
  simp at h2
  exact String.ext h2

lemma format_var_escape (x : String) : format_var (escape x) = x := by
  rw [format_var, if_neg (escape_ne_intercept x)]
  apply String.ext
  rw [String.data_take, String.data_drop, escape_length, escape_data]
  show List.take (x.length + 5 - 5) (List.drop 3
    (('Q' :: '(' :: '"' :: []) ++ x.data ++ ('"' :: ')' :: []))) = x.data
  have hlen : x.length + 5 - 5 = x.data.length := by
    show x.data.length + 5 - 5 = x.data.length
    omega
  rw [hlen]
  simp [List.take_left']

/-! ## Claim theorems -/

/-- Claim C5: for every column name, stripping the escaping wrapper from the
escaped form yields back the original name exactly, and `"Intercept"` passes
through `format_var` unchanged. -/
theorem format_var_round_trip :
    (∀ x : String, format_var (escape x) = x) ∧
    format_var "Intercept" = "Intercept" :=
  ⟨format_var_escape, rfl⟩

/-- Claim C2: with a single independent variable the formula is exactly the
escaped dependent name, a tilde, and the escaped independent name; with a
list of N ≥ 2 names it is the escaped dependent name, a tilde, and the N
escaped names joined by a plus separator, in declaration order, each distinct
name appearing exactly once. -/
theorem create_formula_spec :
    (∀ dep v : String,
      create_formula dep (.single v) = escape dep ++ " ~ " ++ escape v) ∧
    (create_formula "Foo Bar" (.single "Bizz Buzz") =
      "Q(\"Foo Bar\") ~ Q(\"Bizz Buzz\")") ∧
    (∀ (dep : String) (vs : List String), 2 ≤ vs.length →
      create_formula dep (.several vs) =
        escape dep ++ " ~ " ++ String.intercalate " + " (vs.map escape) ∧
      (vs.map escape).length = vs.length ∧
      (∀ i : ℕ, (vs.map escape)[i]? = (vs[i]?).map escape) ∧
      (vs.Nodup → ∀ v ∈ vs, (vs.map escape).count (escape v) = 1)) := by
  refine ⟨fun dep v => rfl, rfl, fun dep vs _h => ⟨rfl, vs.length_map escape, ?_, ?_⟩⟩
  · intro i
    exact List.getElem?_map escape vs i
  · intro hnodup v hv
    exact List.count_eq_one_of_mem (hnodup.map escape_injective)
      (List.mem_map_of_mem escape hv)

/-- Witness for C2 at a concrete two-variable model. -/
theorem create_formula_spec_witness :
    create_formula "y" (.several ["a", "b"]) =
      escape "y" ++ " ~ " ++ String.intercalate " + " (["a", "b"].map escape) ∧
    (["a", "b"].map escape).count (escape "a") = 1 :=
  ⟨(create_formula_spec.2.2 "y" ["a", "b"] (by decide)).1,
   (create_formula_spec.2.2 "y" ["a", "b"] (by decide)).2.2.2 (by decide) "a"
     (by decide)⟩

/-- The state an `EasyOLS` instance reaches after the four construction steps:
`initSteps` always succeeds and each attribute holds its derived value. -/
lemma initSteps_eq (dep : String) (iv : IndependentVars) (df : DataFrame)
    (outcome : FittedModel) :
    initSteps dep iv df outcome = .ok
      { dependent_var := dep
      , independent_vars := iv
      , df := df
      , formula := some (create_formula dep iv)
      , model := some (.fitted outcome)
      , internal_dependent_var := some (escape dep)
      , internal_independent_vars := some ("Intercept" :: iv.varList.map escape)
      , coefficients := some outcome.params
      , confidences := some (outcome.pvalues.map fun p => 1 - p) } := rfl

/-- Claim C7: construction always extracts `1 + n` internal variable names,
the intercept first and the escaped independent names following in
declaration order; and the extraction must indeed happen on the unfit model —
repeating it on the final (fitted) state raises an `AttributeError`. -/
theorem extract_var_names_spec :
    ∀ (dep : String) (iv : IndependentVars) (df : DataFrame)
      (outcome : FittedModel),
    ∃ s : State, initSteps dep iv df outcome = .ok s ∧
      s.internal_independent_vars = some ("Intercept" :: iv.varList.map escape) ∧
      ("Intercept" :: iv.varList.map escape).length = 1 + iv.numVars ∧
      (∀ i : ℕ, (iv.varList.map escape)[i]? = (iv.varList[i]?).map escape) ∧
      extractVarNamesStep s =
        .error (.attributeErr "RegressionResults object has no attribute endog_names") := by
  intro dep iv df outcome
  refine ⟨_, initSteps_eq dep iv df outcome, rfl, ?_, ?_, rfl⟩
  · simp [IndependentVars.numVars, Nat.add_comm]
  · intro i
    exact List.getElem?_map escape iv.varList i

/-- Claim C6: after fitting, the exposed confidence sequence pairs off with
the p-value sequence and each entry equals exactly `1 - p`. -/
theorem confidences_spec :
    ∀ (dep : String) (iv : IndependentVars) (df : DataFrame)
      (outcome : FittedModel) (s : State),
    initSteps dep iv df outcome = .ok s →
    ∃ confs : List ℚ, s.confidences = some confs ∧
      confs.length = outcome.pvalues.length ∧
      ∀ i : ℕ, confs[i]? = (outcome.pvalues[i]?).map fun p => 1 - p := by
  intro dep iv df outcome s h
  rw [initSteps_eq] at h
  cases h
  exact ⟨_, rfl, outcome.pvalues.length_map _,
    fun i => List.getElem?_map (fun p => (1 : ℚ) - p) outcome.pvalues i⟩

/-- Witness for C6 on a concrete two-variable fit. -/
theorem confidences_spec_witness :
    ∃ confs : List ℚ,
      (State.mk "y" (.single "a") ⟨[]⟩
        (some (create_formula "y" (.single "a")))
        (some (.fitted ⟨[(0 : ℚ), 0], [(0 : ℚ), 0]⟩))
        (some (escape "y"))
        (some ("Intercept" :: (IndependentVars.single "a").varList.map escape))
        (some [(0 : ℚ), 0])
        (some (([(0 : ℚ), 0]).map fun p => 1 - p))).confidences = some confs ∧
      confs.length = ([(0 : ℚ), 0]).length ∧
      ∀ i : ℕ, confs[i]? = (([(0 : ℚ), 0])[i]?).map fun p => 1 - p :=
  confidences_spec "y" (.single "a") ⟨[]⟩ ⟨[0, 0], [0, 0]⟩ _ rfl

/-- Claim C4: `plot()` raises the multiple-variable `ValueError` exactly for
models configured with more than one independent variable, and never for a
model with exactly one. -/
theorem plot_guard_spec :
    (∀ iv : IndependentVars, 1 < iv.numVars →
      plotCheck iv =
        .error (.valueErr
          "Cannot create plot for models with multiple independent variables.")) ∧
    (∀ iv : IndependentVars, iv.numVars = 1 → plotCheck iv = .ok ()) := by
  constructor
  · intro iv h
    match iv with
    | .single v => simp [IndependentVars.numVars, IndependentVars.varList] at h
    | .several vs =>
      simp [IndependentVars.numVars, IndependentVars.varList] at h
      simp [plotCheck, h]
  · intro iv h
    match iv with
    | .single v => rfl
    | .several vs =>
      simp [IndependentVars.numVars, IndependentVars.varList] at h
      simp [plotCheck, h]

/-- Witness for C4: a two-variable model is rejected, a one-variable model
passes the guard. -/
theorem plot_guard_spec_witness :
    plotCheck (.several ["a", "b"]) =
      .error (.valueErr
        "Cannot create plot for models with multiple independent variables.") ∧
    plotCheck (.single "a") = .ok () :=
  ⟨plot_guard_spec.1 (.several ["a", "b"]) (by decide),
   plot_guard_spec.2 (.single "a") (by decide)⟩

/-- Counterexample to C1 as stated: for a model with exactly two independent
variables the narration flag is `true`, although the number of independent
variables (extracted count minus the intercept) is 2, which is not greater
than 2. -/
theorem multiple_flag_counterexample :
    areMultipleIndependentVars
      (((ols "y" (.several ["a", "b"])).exog_names).map format_var) = true ∧
    ¬((((ols "y" (.several ["a", "b"])).exog_names).map format_var).length - 1
        > 2) := by
  constructor
  · rfl
  · decide

/-- Claim C1 (amended): the `multiple` flag is true iff the total extracted
variable count (intercept included) exceeds 2, i.e. iff the model has at
least two independent variables. -/
theorem multiple_flag_spec :
    ∀ (dep : String) (iv : IndependentVars) (df : DataFrame)
      (outcome : FittedModel) (s : State) (names : List String),
    initSteps dep iv df outcome = .ok s →
    s.internal_independent_vars = some names →
    (areMultipleIndependentVars (names.map format_var) =
        decide ((names.map format_var).length > 2)) ∧
    (areMultipleIndependentVars (names.map format_var) =
        decide (2 ≤ iv.numVars)) := by
  intro dep iv df outcome s names h hn
  rw [initSteps_eq] at h
  cases h
  simp only [Option.some.injEq] at hn
  subst hn
  refine ⟨rfl, ?_⟩
  show decide ((("Intercept" :: iv.varList.map escape).map format_var).length > 2)
      = decide (2 ≤ iv.numVars)
  have hl : (("Intercept" :: iv.varList.map escape).map format_var).length
      = 1 + iv.numVars := by
    simp [IndependentVars.numVars, Nat.add_comm]
  rw [hl, decide_eq_decide]
  omega

/-- Witness for the amended C1 on a concrete two-variable instance. -/
theorem multiple_flag_spec_witness :
    (areMultipleIndependentVars
      (("Intercept" :: (IndependentVars.several ["a", "b"]).varList.map escape).map
        format_var) =
      decide ((("Intercept" ::
        (IndependentVars.several ["a", "b"]).varList.map escape).map
          format_var).length > 2)) ∧
    (areMultipleIndependentVars
      (("Intercept" :: (IndependentVars.several ["a", "b"]).varList.map escape).map
        format_var) =
      decide (2 ≤ (IndependentVars.several ["a", "b"]).numVars)) :=
  multiple_flag_spec "y" (.several ["a", "b"]) ⟨[]⟩ ⟨[], []⟩ _ _ rfl rfl

lemma all_isStr_map_pyStr (vs : List String) :
    (vs.map PyVal.pyStr).all PyVal.isStr = true := by
  induction vs with
  | nil => rfl
  | cons v t ih => simp [PyVal.isStr, ih]

lemma toTypedVars_toPyVal (iv : IndependentVars) :
    toTypedVars iv.toPyVal = some iv := by
  cases iv with
  | single v => rfl
  | several vs =>
    simp only [IndependentVars.toPyVal, toTypedVars, all_isStr_map_pyStr,
      if_true, List.map_map, Option.some.injEq, IndependentVars.several.injEq]
    have hc : pyStrName ∘ PyVal.pyStr = id := funext fun s => rfl
    rw [hc, List.map_id]

lemma checkArgs_ok_typed (d : String) (iv : IndependentVars) (df : DataFrame) :
    checkArgs (.pyStr d) iv.toPyVal (.pyFrame df) = .ok () := by
  cases iv with
  | single v => rfl
  | several vs =>
    simp [checkArgs, IndependentVars.toPyVal, PyVal.isStr, PyVal.isFrame,
      PyVal.iterElems, all_isStr_map_pyStr]

/-- Counterexample to C3 as stated: `independent_vars = 5` is neither a
string nor a sequence of strings, yet validation raises `TypeError` (from
iterating a non-iterable), not the `ValueError` used for every other
validation failure. -/
theorem validation_counterexample :
    checkArgs (.pyStr "y") (.pyInt 5) (.pyFrame ⟨[]⟩) =
      .error (.typeErr "object is not iterable") ∧
    ∀ msg : String,
      checkArgs (.pyStr "y") (.pyInt 5) (.pyFrame ⟨[]⟩) ≠
        .error (.valueErr msg) := by
  refine ⟨rfl, ?_⟩
  intro msg h
  simp [checkArgs, PyVal.isStr, PyVal.iterElems] at h

/-- Claim C3 (amended): construction raises `ValueError` before any formula
building or fitting whenever `dependent_var` is not a string, or
`independent_vars` is a non-string iterable holding a non-string element, or
the dataset is not a `DataFrame`; a non-string non-iterable
`independent_vars` raises `TypeError` from the iteration instead; well-typed
arguments are never rejected by validation. -/
theorem validation_spec :
    (∀ (dependent_var independent_vars df : PyVal) (outcome : FittedModel),
      dependent_var.isStr = false →
        easyOLSInit dependent_var independent_vars df outcome =
          .error (.valueErr "dependent_var must be a string")) ∧
    (∀ (dependent_var independent_vars df : PyVal) (outcome : FittedModel)
        (elems : List PyVal),
      dependent_var.isStr = true →
      independent_vars.isStr = false →
      independent_vars.iterElems = some elems →
      elems.all PyVal.isStr = false →
        easyOLSInit dependent_var independent_vars df outcome =
          .error
            (.valueErr "independent_vars must be a string or an array of strings")) ∧
    (∀ (dependent_var independent_vars df : PyVal) (outcome : FittedModel),
      dependent_var.isStr = true →
      independent_vars.isStr = false →
      independent_vars.iterElems = none →
        easyOLSInit dependent_var independent_vars df outcome =
          .error (.typeErr "object is not iterable")) ∧
    (∀ (d : String) (iv : IndependentVars) (df : PyVal) (outcome : FittedModel),
      df.isFrame = false →
        easyOLSInit (.pyStr d) iv.toPyVal df outcome =
          .error (.valueErr "df must be a DataFrame")) ∧
    (∀ (d : String) (iv : IndependentVars) (df : DataFrame)
        (outcome : FittedModel),
      easyOLSInit (.pyStr d) iv.toPyVal (.pyFrame df) outcome =
        initSteps d iv df outcome ∧
      ∃ s : State, easyOLSInit (.pyStr d) iv.toPyVal (.pyFrame df) outcome =
        .ok s) := by
  refine ⟨?_, ?_, ?_, ?_, ?_⟩
  · intro dv ivv dfv outcome h
    have hc : checkArgs dv ivv dfv =
        .error (.valueErr "dependent_var must be a string") := by
      simp [checkArgs, h]
    simp only [easyOLSInit]
    rw [hc]
    rfl
  · intro dv ivv dfv outcome elems h1 h2 h3 h4
    have hc : checkArgs dv ivv dfv =
        .error
          (.valueErr "independent_vars must be a string or an array of strings") := by
      simp [checkArgs, h1, h2, h3, h4]
    simp only [easyOLSInit]
    rw [hc]
    rfl
  · intro dv ivv dfv outcome h1 h2 h3
    have hc : checkArgs dv ivv dfv = .error (.typeErr "object is not iterable") := by
      simp [checkArgs, h1, h2, h3]
    simp only [easyOLSInit]
    rw [hc]
    rfl
  · intro d iv dfv outcome h
    have hc : checkArgs (.pyStr d) iv.toPyVal dfv =
        .error (.valueErr "df must be a DataFrame") := by
      cases iv with
      | single v => simp [checkArgs, PyVal.isStr, IndependentVars.toPyVal, h]
      | several vs => simp [checkArgs, PyVal.isStr, IndependentVars.toPyVal,
          PyVal.iterElems, all_isStr_map_pyStr, h]
    simp only [easyOLSInit]
    rw [hc]
    rfl
  · intro d iv df outcome
    have he : easyOLSInit (.pyStr d) iv.toPyVal (.pyFrame df) outcome =
        initSteps d iv df outcome := by
      simp only [easyOLSInit]
      rw [checkArgs_ok_typed, toTypedVars_toPyVal]
      rfl
    exact ⟨he, _, he.trans (initSteps_eq d iv df outcome)⟩

/-- Witness for C3: a non-string `dependent_var` is rejected with the
`ValueError`, and a fully well-typed construction succeeds. -/
theorem validation_spec_witness :
    easyOLSInit (.pyInt 0) (.pyStr "a") (.pyFrame ⟨[]⟩) ⟨[], []⟩ =
      .error (.valueErr "dependent_var must be a string") ∧
    ∃ s : State,
      easyOLSInit (.pyStr "y") (IndependentVars.single "a").toPyVal
        (.pyFrame ⟨[]⟩) ⟨[], []⟩ = .ok s :=
  ⟨validation_spec.1 (.pyInt 0) (.pyStr "a") (.pyFrame ⟨[]⟩) ⟨[], []⟩ rfl,
   (validation_spec.2.2.2.2 "y" (.single "a") ⟨[]⟩ ⟨[], []⟩).2⟩

/-- Claim C9: a successful `plot()` call appends exactly one derived column
named after the dependent variable, holding the predicted values, and leaves
every other column lookup unchanged, provided no column of that name
pre-exists. -/
theorem plot_mutation_spec :
    ∀ (dep : String) (iv : IndependentVars) (df : DataFrame) (preds : List ℚ),
    plotCheck iv = .ok () →
    (df.cols.any fun p => p.1 = "Predicted " ++ dep) = false →
    plotMutate dep iv df preds =
      .ok ⟨df.cols ++ [("Predicted " ++ dep, preds)]⟩ ∧
    (df.cols ++ [("Predicted " ++ dep, preds)]).length = df.cols.length + 1 ∧
    DataFrame.col? ⟨df.cols ++ [("Predicted " ++ dep, preds)]⟩
      ("Predicted " ++ dep) = some preds ∧
    (∀ name : String, name ≠ "Predicted " ++ dep →
      DataFrame.col? ⟨df.cols ++ [("Predicted " ++ dep, preds)]⟩ name =
        df.col? name) := by
  intro dep iv df preds hok habs
  have hfind : (df.cols.find? fun p => p.1 = "Predicted " ++ dep) = none := by
    rw [List.find?_eq_none]
    intro x hx
    intro hpx
    have := List.any_eq_false.mp habs x hx
    exact this hpx
  refine ⟨?_, by simp, ?_, ?_⟩
  · rw [plotMutate, hok, DataFrame.setColumn, if_neg]
    rw [habs]
    simp
  · rw [DataFrame.col?]
    simp only [List.find?_append, hfind, Option.none_or]
    simp
  · intro name hne
    rw [DataFrame.col?, DataFrame.col?]
    simp only [List.find?_append]
    have h2 : (([("Predicted " ++ dep, preds)]).find? fun p => p.1 = name)
        = none := by
      rw [List.find?_eq_none]
      intro x hx
      simp at hx
      subst hx
      simp
      exact fun hc => hne hc.symm
    rw [h2]
    cases h3 : df.cols.find? fun p => p.1 = name with
    | none => simp
    | some v => simp

/-- Witness for C9 on a concrete one-column dataset. -/
theorem plot_mutation_spec_witness :
    plotMutate "y" (.single "x") ⟨[("x", [])]⟩ [] =
      .ok ⟨[("x", [])] ++ [("Predicted " ++ "y", [])]⟩ ∧
    ([("x", [])] ++ [("Predicted " ++ "y", ([] : List ℚ))]).length =
      [("x", ([] : List ℚ))].length + 1 ∧
    DataFrame.col? ⟨[("x", [])] ++ [("Predicted " ++ "y", [])]⟩
      ("Predicted " ++ "y") = some [] ∧
    (∀ name : String, name ≠ "Predicted " ++ "y" →
      DataFrame.col? ⟨[("x", [])] ++ [("Predicted " ++ "y", [])]⟩ name =
        DataFrame.col? ⟨[("x", [])]⟩ name) :=
  plot_mutation_spec "y" (.single "x") ⟨[("x", [])]⟩ [] rfl (by decide)

lemma empty_append_str (s : String) : "" ++ s = s := by
  apply String.ext
  rw [String.data_append]
  simp [show ("" : String).data = [] from rfl]

lemma format2_pos_example : format2 (5 / 2) = "2.50" := by
  have h : |(5 : ℚ) / 2| * 100 = 250 := by
    rw [abs_of_nonneg (by norm_num : ((0 : ℚ) ≤ 5 / 2))]
    norm_num
  rw [format2, h]
  norm_num [roundHalfEven, Int.fract]
  rfl

lemma format2_neg_example : format2 (-6 / 5) = "-1.20" := by
  have h : |(-6 : ℚ) / 5| * 100 = 120 := by
    rw [abs_of_nonpos (by norm_num : ((-6 : ℚ) / 5 ≤ 0))]
    norm_num
  rw [format2, h]
  norm_num [roundHalfEven, Int.fract]
  rfl

lemma format2_zero_example : format2 0 = "0.00" := by
  rw [format2]
  norm_num [roundHalfEven, Int.fract]
  rfl

lemma parseFloat_pos_example : (0 : ℚ) < parseFloat "2.50" := by
  simp [parseFloat, splitIntFrac, digitsVal]
  norm_num

lemma parseFloat_neg_example : parseFloat "-1.20" = -(6 / 5 : ℚ) := by
  simp [parseFloat, splitIntFrac, digitsVal]
  norm_num

lemma parseFloat_zero_example : parseFloat "0.00" = 0 := by
  simp [parseFloat, splitIntFrac, digitsVal]

/-- Claim C8: in the non-intercept sentences the rendered two-decimal
coefficient carries a `"+"` prefix exactly when the rendered value is
positive: `2.50` renders as `"+2.50"`, `-1.20` as `"-1.20"`, and `0.00` as
`"0.00"` with no prefix. -/
theorem coefficient_sign_spec :
    signedCoefficient (format2 (5 / 2)) = "+2.50" ∧
    signedCoefficient (format2 (-6 / 5)) = "-1.20" ∧
    signedCoefficient (format2 0) = "0.00" ∧
    (∀ c : ℚ, 0 < parseFloat (format2 c) →
      signedCoefficient (format2 c) = "+" ++ format2 c) ∧
    (∀ c : ℚ, parseFloat (format2 c) ≤ 0 →
      signedCoefficient (format2 c) = format2 c) := by
  refine ⟨?_, ?_, ?_, fun c h => ?_, fun c h => ?_⟩
  · rw [format2_pos_example, signedCoefficient, if_pos parseFloat_pos_example]
    decide
  · rw [format2_neg_example, signedCoefficient,
      if_neg (by rw [parseFloat_neg_example]; norm_num :
        ¬ (0 : ℚ) < parseFloat "-1.20")]
    exact empty_append_str "-1.20"
  · rw [format2_zero_example, signedCoefficient,
      if_neg (by rw [parseFloat_zero_example]; exact lt_irrefl 0 :
        ¬ (0 : ℚ) < parseFloat "0.00")]
    exact empty_append_str "0.00"
  · rw [signedCoefficient, if_pos h]
  · rw [signedCoefficient, if_neg (not_lt.mpr h)]
    exact empty_append_str _

/-- Witness for C8: the positive-prefix rule applied at the concrete
coefficient 5/2. -/
theorem coefficient_sign_spec_witness :
    signedCoefficient (format2 (5 / 2)) = "+" ++ format2 (5 / 2) :=
  coefficient_sign_spec.2.2.2.1 (5 / 2)
    (format2_pos_example.symm ▸ parseFloat_pos_example)

lemma mapM_option_isSome {α β : Type} (f : α → Option β) :
    ∀ l : List α, (∀ a ∈ l, (f a).isSome) → (l.mapM f).isSome := by
  intro l
  induction l with
  | nil => intro _; rfl
  | cons a t ih =>
    intro h
    obtain ⟨b, hb⟩ := Option.isSome_iff_exists.mp (h a (List.mem_cons_self a t))
    obtain ⟨bs, hbs⟩ := Option.isSome_iff_exists.mp
      (ih fun x hx => h x (List.mem_cons_of_mem a hx))
    rw [List.mapM_cons, hb, hbs]
    rfl

lemma conclusionLine_isSome (depv : String) (ivs : List String) (flag : Bool)
    (confs coefs : List ℚ) (i : ℕ)
    (h1 : i < confs.length) (h2 : i < coefs.length)
    (h3 : i = 0 → flag = false → 1 < ivs.length)
    (h4 : i < ivs.length) :
    (conclusionLine depv ivs flag confs coefs i).isSome := by
  have hcf := List.getElem?_eq_getElem h1
  have hco := List.getElem?_eq_getElem h2
  by_cases hi : i = 0
  · subst hi
    cases hflag : flag with
    | false =>
      have h5 : (0 : ℕ) + 1 < ivs.length := by
        have := h3 rfl hflag
        omega
      have hiv := List.getElem?_eq_getElem h5
      simp [conclusionLine, hcf, hco, hiv]
    | true =>
      simp [conclusionLine, hcf, hco]
  · have hiv := List.getElem?_eq_getElem h4
    cases hflag : flag with
    | false => simp [conclusionLine, hcf, hco, hiv, hi]
    | true => simp [conclusionLine, hcf, hco, hiv, hi]

/-- Claim C10: on every successfully constructed model with at least one
independent variable (and one fitted coefficient and p-value per extracted
name), all positional accesses performed by the narration of `summary()` are
in bounds — in particular the index-1 read in the single-variable intercept
sentence — so the conclusion block is produced without an `IndexError`. -/
theorem summary_index_safety :
    ∀ (dep : String) (iv : IndependentVars) (df : DataFrame)
      (outcome : FittedModel) (s : State),
    initSteps dep iv df outcome = .ok s →
    1 ≤ iv.numVars →
    outcome.params.length = 1 + iv.numVars →
    outcome.pvalues.length = 1 + iv.numVars →
    (summaryConclusions s).isSome := by
  intro dep iv df outcome s h h1 hp hpv
  rw [initSteps_eq] at h
  cases h
  simp only [summaryConclusions]
  have hL : (("Intercept" :: iv.varList.map escape).map format_var).length
      = 1 + iv.numVars := by
    simp [IndependentVars.numVars, Nat.add_comm]
  have hsome : ((List.range
      ((("Intercept" :: iv.varList.map escape).map format_var).length)).mapM
      (conclusionLine (format_var (escape dep))
        (("Intercept" :: iv.varList.map escape).map format_var)
        (areMultipleIndependentVars
          (("Intercept" :: iv.varList.map escape).map format_var))
        (outcome.pvalues.map fun p => 1 - p) outcome.params)).isSome := by
    apply mapM_option_isSome
    intro i hi
    rw [List.mem_range, hL] at hi
    apply conclusionLine_isSome
    · rw [List.length_map, hpv]
      exact hi
    · rw [hp]
      exact hi
    · intro _ _
      rw [hL]
      omega
    · rw [hL]
      exact hi
  obtain ⟨lines, hlines⟩ := Option.isSome_iff_exists.mp hsome
  rw [hlines]
  simp

/-- Witness for C10 on the single-variable end-to-end scenario of the spec. -/
theorem summary_index_safety_witness :
    (summaryConclusions (State.mk "pH" (.single "citric acid") ⟨[]⟩
      (some (create_formula "pH" (.single "citric acid")))
      (some (.fitted ⟨[(0 : ℚ), 0], [(0 : ℚ), 0]⟩))
      (some (escape "pH"))
      (some ("Intercept" ::
        (IndependentVars.single "citric acid").varList.map escape))
      (some [(0 : ℚ), 0])
      (some (([(0 : ℚ), 0]).map fun p => 1 - p)))).isSome :=
  summary_index_safety "pH" (.single "citric acid") ⟨[]⟩ ⟨[0, 0], [0, 0]⟩ _ rfl
    (by decide) (by decide) (by decide)

end EasyOLS
